import Mathlib

/-!
Shallow embedding of the MediCart storefront core (src/app.js).

Modelling conventions:
* JS numbers that hold money, percentages and quantities are modelled as ℚ.
  `x.toFixed(2)` followed by unary `+` (used by both decorators) rounds to the
  nearest multiple of 1/100, ties picking the larger value, which is `round`
  (round half up) on ℚ scaled by 100; this is `round2` below.
* The decorator chain (`Product`, `DiscountDecorator`, `InsuranceDecorator`) is
  an inductive `PricedItem`; the JS constructors, which clamp the percent to
  [0,100] via `Math.max(0, Math.min(100, ...))`, are the functions
  `DiscountDecorator` / `InsuranceDecorator` below.
* `CartSubject` holds the `items` list and the `observers` registry.  Observer
  references are modelled by an `Observer` value with decidable equality
  standing for JS reference identity, plus the `hasUpdate` flag mirroring the
  `o.update && o.update(this)` guard in `notify()`.  Since `notify()` runs
  synchronously inside every mutating method, each mutating operation here
  returns the new cart state together with the list of `update` calls it made
  (in call order, each carrying the cart value that was passed), so "notified
  before the call returns" is part of the operation's result.
* `Array.prototype.splice(index, 1)` in `removeItem` is modelled with the
  ECMAScript index arithmetic: a negative index counts from the end (clamped
  to 0), a too-large index is clamped to the length (deleting nothing).
* The module-level `Prescription` closure is a single boolean state threaded
  explicitly; `verify` returns the new state, the boolean result, and the
  alert message it would show on failure.
* The add-to-cart click handler (guard, decoration, `cart.addItem`) is
  `addToCartFlow`; DOM rendering is presentation glue and is not modelled.
-/

namespace MediCart

/-- `+(x.toFixed(2))`: round to 2 decimal places, ties to the larger value. -/
def round2 (x : ℚ) : ℚ := ((round (x * 100) : ℤ) : ℚ) / 100

/-- `Math.max(0, Math.min(100, p))` as used by both decorator constructors. -/
def clampPercent (p : ℚ) : ℚ := max 0 (min 100 p)

/-- The `Product` model: id, name, numeric base price, boolean Rx flag. -/
structure Product where
  id : String
  name : String
  basePrice : ℚ
  prescriptionRequired : Bool
  deriving DecidableEq, Repr

/-- The catalog constant `CATALOG` of src/app.js (prices are exact decimals:
24.99, 34.5, 18.25, 9.95). -/
def CATALOG : List Product :=
  [⟨"amox500", "Amoxicillin 500mg (20 caps)", 2499/100, true⟩,
   ⟨"ator20", "Atorvastatin 20mg (30 tabs)", 69/2, true⟩,
   ⟨"met500", "Metformin 500mg (60 tabs)", 73/4, true⟩,
   ⟨"omep20", "Omeprazole 20mg (14 caps)", 199/20, false⟩]

/-- `ProductFactory.createProduct`: looks the id up in `CATALOG`; `none`
models the thrown `Unknown product id` error. -/
def createProduct (productId : String) : Option Product :=
  CATALOG.find? (fun p => p.id == productId)

/-- A priced item: a bare `Product` or a decorator wrapping another item.
The percent stored in a decorator node is the (already clamped) field value. -/
inductive PricedItem where
  | product (p : Product)
  | discount (wrappee : PricedItem) (percent : ℚ)
  | insurance (wrappee : PricedItem) (coveragePercent : ℚ)
  deriving DecidableEq, Repr

/-- `new DiscountDecorator(wrappee, percent)`: stores the clamped percent. -/
def DiscountDecorator (wrappee : PricedItem) (percent : ℚ) : PricedItem :=
  .discount wrappee (clampPercent percent)

/-- `new InsuranceDecorator(wrappee, coveragePercent)`: stores the clamped
coverage percent (the JS default argument 30 is supplied by callers here). -/
def InsuranceDecorator (wrappee : PricedItem) (coveragePercent : ℚ) : PricedItem :=
  .insurance wrappee (clampPercent coveragePercent)

/-- `getPrice()`: the base returns `basePrice`; each decorator takes the
wrappee's price and applies its own multiplicative reduction, rounded to two
decimals at that layer (`+(p * (1 - percent/100)).toFixed(2)`). -/
def getPrice : PricedItem → ℚ
  | .product p => p.basePrice
  | .discount w pc => round2 (getPrice w * (1 - pc / 100))
  | .insurance w cp => round2 (getPrice w * (1 - cp / 100))

/-- One cart line `{ product, qty }` as pushed by `addItem`. -/
structure CartLine where
  product : PricedItem
  qty : ℚ
  deriving DecidableEq, Repr

/-- An observer reference: identity (for `!==` filtering) and whether it has
an `update` method (the `o.update &&` guard in `notify`). -/
structure Observer where
  oid : ℕ
  hasUpdate : Bool
  deriving DecidableEq, Repr

/-- `CartSubject` state: ordered item lines plus the observer registry. -/
structure CartSubject where
  items : List CartLine
  observers : List Observer
  deriving DecidableEq, Repr

/-- One `o.update(this)` call made by `notify()`: which observer was called
and the cart value passed to it. -/
structure NotifyEvent where
  observer : Observer
  passed : CartSubject
  deriving DecidableEq, Repr

/-- `notify()`: `this.observers.forEach(o => o.update && o.update(this))` —
calls `update(this)` on every registered observer that has an `update` method,
in registration order. -/
def notify (c : CartSubject) : List NotifyEvent :=
  (c.observers.filter (fun o => o.hasUpdate)).map (fun o => ⟨o, c⟩)

/-- `addObserver(observer)`: pushes onto the registry (duplicates allowed). -/
def addObserver (c : CartSubject) (o : Observer) : CartSubject :=
  { c with observers := c.observers ++ [o] }

/-- `removeObserver(observer)`: keeps exactly the registrations that are not
reference-identical to the argument. -/
def removeObserver (c : CartSubject) (o : Observer) : CartSubject :=
  { c with observers := c.observers.filter (fun x => x != o) }

/-- `addItem(product, qty)`: clamps the quantity with `Math.max(1, qty)`,
pushes the new line, then notifies.  Returns the new state and the update
calls made before returning. -/
def addItem (c : CartSubject) (product : PricedItem) (qty : ℚ) :
    CartSubject × List NotifyEvent :=
  let c2 : CartSubject := { c with items := c.items ++ [⟨product, max 1 qty⟩] }
  (c2, notify c2)

/-- The actual start position of `splice(i, 1)` on a list of length `len`
(ECMAScript 23.1.3.31): negative indices count from the end, clamped to 0;
non-negative indices are clamped to `len`. -/
def spliceIndex (len : ℕ) (i : ℤ) : ℕ :=
  (if i < 0 then max ((len : ℤ) + i) 0 else min i (len : ℤ)).toNat

/-- `removeItem(index)`: `this.items.splice(index, 1)` then `notify()`. -/
def removeItem (c : CartSubject) (i : ℤ) : CartSubject × List NotifyEvent :=
  let s := spliceIndex c.items.length i
  let c2 : CartSubject := { c with items := c.items.take s ++ c.items.drop (s + 1) }
  (c2, notify c2)

/-- `clear()`: empties the lines, then notifies. -/
def clear (c : CartSubject) : CartSubject × List NotifyEvent :=
  let c2 : CartSubject := { c with items := [] }
  (c2, notify c2)

/-- `getTotal()`: `reduce((sum, item) => sum + item.product.getPrice() * item.qty, 0)`. -/
def getTotal (c : CartSubject) : ℚ :=
  c.items.foldl (fun sum item => sum + getPrice item.product * item.qty) 0

/-- `Prescription.verify({hasFile, confirmed})` acting on the closure variable
`verified`: returns the new state, the boolean result, and the alert message
shown on failure (`none` on success). -/
def Prescription.verify (verified hasFile confirmed : Bool) :
    Bool × Bool × Option String :=
  if !hasFile then
    (verified, false, some ("A prescription file is required."))
  else if !confirmed then
    (verified, false,
      some ("Please confirm that the uploaded file is a valid prescription."))
  else
    (true, true, none)

/-- `Prescription.isVerified()`: reads the closure variable. -/
def Prescription.isVerified (verified : Bool) : Bool := verified

/-- Outcome of the add-to-cart click handler. -/
inductive AddOutcome where
  | notFound
  | permissionDenied
  | added
  deriving DecidableEq, Repr

/-- Result of the add-to-cart click handler: outcome, resulting cart state,
and the observer update calls fired during the handler. -/
structure FlowResult where
  outcome : AddOutcome
  cart : CartSubject
  events : List NotifyEvent
  deriving DecidableEq, Repr

/-- Decoration step of the click handler: `if (discount > 0)` wrap in a
`DiscountDecorator`; `if (insuranceSel !== 'none')` wrap in an
`InsuranceDecorator` (the `none` option models selecting `'none'`). -/
def decorate (product : Product) (discount : ℚ) (insuranceSel : Option ℚ) :
    PricedItem :=
  let item1 : PricedItem := .product product
  let item2 := if discount > 0 then DiscountDecorator item1 discount else item1
  match insuranceSel with
  | none => item2
  | some cov => InsuranceDecorator item2 cov

/-- The add-to-cart click handler of src/app.js: create the product via the
factory, refuse if it is prescription-gated and the gate is unverified
(`product.prescriptionRequired === true && !Prescription.isVerified()`),
otherwise decorate and `cart.addItem(product, qty)`.  On a refusal (and on an
unknown id) the cart is returned unchanged and no update calls are made. -/
def addToCartFlow (rxVerified : Bool) (cart : CartSubject) (productId : String)
    (discount : ℚ) (insuranceSel : Option ℚ) (qty : ℚ) : FlowResult :=
  match createProduct productId with
  | none => ⟨.notFound, cart, []⟩
  | some product =>
    if product.prescriptionRequired && !(Prescription.isVerified rxVerified) then
      ⟨.permissionDenied, cart, []⟩
    else
      let r := addItem cart (decorate product discount insuranceSel) qty
      ⟨.added, r.1, r.2⟩

/-- Whole-app state: the cart and the prescription closure variable. -/
structure AppState where
  cart : CartSubject
  rxVerified : Bool
  deriving DecidableEq, Repr

/-- The mutating entry points the source can drive from its event handlers. -/
inductive Action where
  | verifyRx (hasFile confirmed : Bool)
  | cartAdd (product : PricedItem) (qty : ℚ)
  | cartRemove (i : ℤ)
  | cartClear
  | subscribe (o : Observer)
  | unsubscribe (o : Observer)
  deriving DecidableEq, Repr

/-- One action applied to the app state. -/
def step (s : AppState) : Action → AppState
  | .verifyRx h c => { s with rxVerified := (Prescription.verify s.rxVerified h c).1 }
  | .cartAdd p q => { s with cart := (addItem s.cart p q).1 }
  | .cartRemove i => { s with cart := (removeItem s.cart i).1 }
  | .cartClear => { s with cart := (clear s.cart).1 }
  | .subscribe o => { s with cart := addObserver s.cart o }
  | .unsubscribe o => { s with cart := removeObserver s.cart o }

/-- A sequence of actions applied in order. -/
def runActs (s : AppState) : List Action → AppState
  | [] => s
  | a :: rest => runActs (step s a) rest

/-- The empty cart produced by `new CartSubject()`. -/
def emptyCart : CartSubject := ⟨[], []⟩

/-- A $50 base product, as in the spec's chaining example. -/
def base50 : PricedItem := .product ⟨"p50", "Base", 50, false⟩

/-- Discount(10) then Insurance(30) on the $50 base. -/
def chain50 : PricedItem := InsuranceDecorator (DiscountDecorator base50 10) 30

/-- A $0.11 base product, used to exhibit per-layer vs single rounding. -/
def pennyBase : PricedItem := .product ⟨"p11", "Penny", 11/100, false⟩

/-- Discount(30) then Insurance(30) on the $0.11 base. -/
def chainPenny : PricedItem := InsuranceDecorator (DiscountDecorator pennyBase 30) 30

/-- A $100 base product, as in the spec's clamping property. -/
def base100 : PricedItem := .product ⟨"b100", "Hundred", 100, false⟩

/-- A plain $10 item for cart examples. -/
def sampleItem : PricedItem := .product ⟨"x10", "Sample", 10, false⟩

/-- The first catalog entry (prescription-gated). -/
def amoxProduct : Product := ⟨"amox500", "Amoxicillin 500mg (20 caps)", 2499/100, true⟩

/-- A cart holding one $10 line. -/
def oneLineCart : CartSubject := ⟨[⟨sampleItem, 1⟩], []⟩

/-- A cart holding two lines. -/
def twoLineCart : CartSubject := ⟨[⟨sampleItem, 1⟩, ⟨base50, 2⟩], []⟩

/-- Two distinct observers that both expose `update`. -/
def obsA : Observer := ⟨0, true⟩

/-- Second observer. -/
def obsB : Observer := ⟨1, true⟩

/-- An empty cart with two registered observers. -/
def obsCart : CartSubject := ⟨[], [obsA, obsB]⟩

/-! ## Helper lemmas -/

/-- Unfolding of the item list produced by `removeItem`. -/
theorem removeItem_items (c : CartSubject) (i : ℤ) :
    (removeItem c i).1.items
      = c.items.take (spliceIndex c.items.length i)
        ++ c.items.drop (spliceIndex c.items.length i + 1) := rfl

/-- `eraseIdx` at or past the length leaves the list unchanged. -/
theorem eraseIdx_beyond_length {α : Type} (l : List α) (n : ℕ) (h : l.length ≤ n) :
    l.eraseIdx n = l := by
  rw [List.eraseIdx_eq_take_drop_succ, List.take_of_length_le h,
    List.drop_eq_nil_of_le (by omega), List.append_nil]

/-- When every registered observer has an `update` method, `notify` calls each
of them once, in registration order, passing the cart. -/
theorem notify_eq_map_of_all_update (c : CartSubject)
    (hall : ∀ o ∈ c.observers, o.hasUpdate = true) :
    notify c = c.observers.map (fun o => ⟨o, c⟩) := by
  unfold notify
  rw [List.filter_eq_self.mpr hall]

/-! ## Claim theorems -/

/-- Claim C1 (amended): every decorator layer prices itself as
`round2(child.price * (1 - percent/100))`, the rounding applied independently
at each layer; Discount(10) then Insurance(30) on a $50 base gives step1
`45.00` and a final price of `31.50`.  In that particular example a single
final rounding of `50*0.9*0.7` happens to coincide (also `31.50`); the two
schemes genuinely differ on other inputs, e.g. a $0.11 base with Discount(30)
then Insurance(30) prices at `0.06` per layer but `0.05` under one single
final rounding. -/
theorem C1_per_layer_rounding :
    (∀ (w : PricedItem) (pc : ℚ),
        getPrice (PricedItem.discount w pc) = round2 (getPrice w * (1 - pc / 100)))
  ∧ (∀ (w : PricedItem) (cp : ℚ),
        getPrice (PricedItem.insurance w cp) = round2 (getPrice w * (1 - cp / 100)))
  ∧ getPrice (DiscountDecorator base50 10) = 45
  ∧ getPrice chain50 = 63/2
  ∧ getPrice chainPenny = 3/50
  ∧ round2 (getPrice pennyBase * (1 - 30/100) * (1 - 30/100)) = 1/20 := by
  refine ⟨fun w pc => rfl, fun w cp => rfl, ?_, ?_, ?_, ?_⟩ <;>
    norm_num [chain50, base50, chainPenny, pennyBase, getPrice, DiscountDecorator,
      InsuranceDecorator, clampPercent, round2, round_eq]

/-- Claim C1 counterexample to the literal "and not 50*0.9*0.7 rounded once":
on the $50 example the chain price (31.50) is exactly equal to the
once-rounded product `round2(50*0.9*0.7)`, so the claimed distinction fails
at this input (it only shows up elsewhere, see `chainPenny`). -/
theorem C1_single_rounding_coincides_at_50 :
    getPrice chain50 = 63/2 ∧ round2 (50 * (1 - 10/100) * (1 - 30/100)) = 63/2 := by
  constructor <;>
    norm_num [chain50, base50, getPrice, DiscountDecorator, InsuranceDecorator,
      clampPercent, round2, round_eq]

/-- Claim C2 (confirmed): adding a prescription-gated product through the
add-to-cart flow while the gate is unverified is refused with
`permissionDenied`, leaving the cart's line sequence unchanged and firing no
observer notification; after `verify(true, true)` has succeeded, the same add
request appends a line to the cart. -/
theorem C2_rx_gate_refusal_then_success (cart : CartSubject) (pid : String)
    (product : Product) (d : ℚ) (ins : Option ℚ) (q : ℚ)
    (hfind : createProduct pid = some product)
    (hrx : product.prescriptionRequired = true) :
    addToCartFlow false cart pid d ins q = ⟨.permissionDenied, cart, []⟩
  ∧ (Prescription.verify false true true).2.1 = true
  ∧ (addToCartFlow (Prescription.verify false true true).1 cart pid d ins q).outcome
      = .added
  ∧ (addToCartFlow (Prescription.verify false true true).1 cart pid d ins q).cart.items
      = cart.items ++ [⟨decorate product d ins, max 1 q⟩] := by
  have hv : Prescription.verify false true true = (true, true, none) := rfl
  refine ⟨?_, rfl, ?_, ?_⟩
  · simp [addToCartFlow, hfind, Prescription.isVerified, hrx]
  · simp [addToCartFlow, hfind, Prescription.isVerified, hrx, hv]
  · simp [addToCartFlow, hfind, Prescription.isVerified, hrx, hv, addItem]

/-- Witness for C2 at the gated catalog product `amox500` on an empty cart. -/
theorem C2_rx_gate_refusal_then_success_witness :
    addToCartFlow false emptyCart ("amox500") 0 none 1
      = ⟨.permissionDenied, emptyCart, []⟩
  ∧ (Prescription.verify false true true).2.1 = true
  ∧ (addToCartFlow (Prescription.verify false true true).1 emptyCart ("amox500") 0 none 1).outcome
      = .added
  ∧ (addToCartFlow (Prescription.verify false true true).1 emptyCart ("amox500") 0 none 1).cart.items
      = emptyCart.items ++ [⟨decorate amoxProduct 0 none, max 1 1⟩] :=
  C2_rx_gate_refusal_then_success emptyCart ("amox500") amoxProduct 0 none 1 rfl rfl

/-- Claim C3 (confirmed): `verify` returns true exactly when both `hasFile`
and `confirmed` are true; on either failure the state is left as it was, and
on success the state becomes verified. -/
theorem C3_verify_result_and_transition :
    ∀ st hf cf : Bool,
      ((Prescription.verify st hf cf).2.1 = (hf && cf))
    ∧ ((Prescription.verify st false cf).1 = st)
    ∧ ((Prescription.verify st hf false).1 = st)
    ∧ ((Prescription.verify st true true).1 = true) := by decide

/-- Claim C4 (confirmed): once the gate is verified it stays verified under
every subsequent sequence of `verify` calls (any arguments) and cart
operations — no modelled action un-verifies it. -/
theorem C4_verified_is_terminal (s : AppState) (acts : List Action)
    (h : Prescription.isVerified s.rxVerified = true) :
    Prescription.isVerified (runActs s acts).rxVerified = true := by
  induction acts generalizing s with
  | nil => exact h
  | cons a rest ih =>
    refine ih (step s a) ?_
    cases a with
    | verifyRx hf cf =>
      have hs : s.rxVerified = true := h
      simp only [step, Prescription.isVerified]
      rw [hs]
      cases hf <;> cases cf <;> rfl
    | cartAdd p q => exact h
    | cartRemove i => exact h
    | cartClear => exact h
    | subscribe o => exact h
    | unsubscribe o => exact h

/-- Witness for C4: a verified state survives failed re-verification attempts
and cart mutations. -/
theorem C4_verified_is_terminal_witness :
    Prescription.isVerified (runActs ⟨emptyCart, true⟩
      [Action.verifyRx false false, Action.cartAdd sampleItem 1,
       Action.verifyRx true false, Action.cartClear]).rxVerified = true :=
  C4_verified_is_terminal ⟨emptyCart, true⟩
    [Action.verifyRx false false, Action.cartAdd sampleItem 1,
     Action.verifyRx true false, Action.cartClear] rfl

/-- Claim C5 (amended): for indices at or past the length, `removeItem` is a
silent no-op (line sequence and total unchanged); a non-negative in-range
index removes exactly the line at that position (splice start `min i len`,
expressed through `eraseIdx`, which shifts later lines down by one); a
negative index, however, follows splice semantics and addresses the line at
`length + i` (clamped to 0) instead of being a no-op. -/
theorem C5_removeItem_splice_semantics (c : CartSubject) (i : ℤ) :
    ((c.items.length : ℤ) ≤ i →
        (removeItem c i).1.items = c.items ∧ getTotal (removeItem c i).1 = getTotal c)
  ∧ (0 ≤ i → (removeItem c i).1.items = c.items.eraseIdx i.toNat)
  ∧ (i < 0 →
        (removeItem c i).1.items = c.items.eraseIdx ((c.items.length : ℤ) + i).toNat) := by
  refine ⟨?_, ?_, ?_⟩
  · intro hle
    have hs : spliceIndex c.items.length i = c.items.length := by
      simp only [spliceIndex]
      omega
    have hitems : (removeItem c i).1.items = c.items := by
      rw [removeItem_items, hs, List.take_length,
        List.drop_eq_nil_of_le (by omega), List.append_nil]
    refine ⟨hitems, ?_⟩
    show (removeItem c i).1.items.foldl _ 0 = c.items.foldl _ 0
    rw [hitems]
  · intro h0
    rw [removeItem_items, ← List.eraseIdx_eq_take_drop_succ]
    have hcases : spliceIndex c.items.length i = i.toNat ∨
        (spliceIndex c.items.length i = c.items.length ∧ c.items.length ≤ i.toNat) := by
      simp only [spliceIndex]
      omega
    rcases hcases with h | ⟨h1, h2⟩
    · rw [h]
    · rw [h1, eraseIdx_beyond_length c.items c.items.length le_rfl,
        eraseIdx_beyond_length c.items i.toNat h2]
  · intro hneg
    rw [removeItem_items, ← List.eraseIdx_eq_take_drop_succ]
    have hs : spliceIndex c.items.length i = ((c.items.length : ℤ) + i).toNat := by
      simp only [spliceIndex]
      omega
    rw [hs]

/-- Witness for C5 on a two-line cart: index 5 is a no-op, index 0 erases the
first line, index -1 erases via splice's end-relative addressing. -/
theorem C5_removeItem_splice_semantics_witness :
    ((removeItem twoLineCart 5).1.items = twoLineCart.items
      ∧ getTotal (removeItem twoLineCart 5).1 = getTotal twoLineCart)
  ∧ (removeItem twoLineCart 0).1.items = twoLineCart.items.eraseIdx ((0 : ℤ)).toNat
  ∧ (removeItem twoLineCart (-1)).1.items
      = twoLineCart.items.eraseIdx ((twoLineCart.items.length : ℤ) + (-1)).toNat :=
  ⟨(C5_removeItem_splice_semantics twoLineCart 5).1 (by norm_num [twoLineCart]),
   (C5_removeItem_splice_semantics twoLineCart 0).2.1 (by norm_num),
   (C5_removeItem_splice_semantics twoLineCart (-1)).2.2 (by norm_num)⟩

/-- Claim C5 counterexample: -1 is not an index of a one-line cart's sequence
(all its positions are non-negative), yet `removeItem(-1)` is not a no-op: it
deletes the only line and changes the total from 10 to 0. -/
theorem C5_negative_index_removes_line :
    ((-1 : ℤ) < 0)
  ∧ oneLineCart.items.length = 1
  ∧ (removeItem oneLineCart (-1)).1.items = []
  ∧ getTotal oneLineCart = 10
  ∧ getTotal (removeItem oneLineCart (-1)).1 = 0 := by
  refine ⟨by norm_num, rfl, rfl, ?_, rfl⟩
  norm_num [getTotal, oneLineCart, sampleItem, getPrice]

/-- Claim C6 (amended): `addItem` stores quantity `max 1 qty`, so the stored
quantity is always ≥ 1 and arguments below 1 (such as 0 and -5) are coerced
to 1 at the boundary rather than rejected; but the stored quantity is an
integer only when the argument is — a fractional argument ≥ 1 is stored
verbatim, not rounded to an integer. -/
theorem C6_qty_clamped_not_rounded (c : CartSubject) (item : PricedItem) (q : ℚ) :
    ((addItem c item q).1.items = c.items ++ [⟨item, max 1 q⟩] ∧ 1 ≤ max 1 q)
  ∧ (addItem c item 0).1.items = c.items ++ [⟨item, 1⟩]
  ∧ (addItem c item (-5)).1.items = c.items ++ [⟨item, 1⟩] := by
  refine ⟨⟨rfl, le_max_left 1 q⟩, ?_, ?_⟩
  · show c.items ++ [⟨item, max 1 (0 : ℚ)⟩] = c.items ++ [⟨item, 1⟩]
    norm_num
  · show c.items ++ [⟨item, max 1 (-5 : ℚ)⟩] = c.items ++ [⟨item, 1⟩]
    norm_num

/-- Claim C6 counterexample: `addItem` with qty 5/2 stores quantity 5/2
exactly; 5/2 has denominator 2, so the stored quantity is not an integer,
refuting "the stored CartLine's quantity is an integer" for every argument. -/
theorem C6_fractional_qty_stored_verbatim :
    (addItem emptyCart sampleItem (5/2)).1.items = [⟨sampleItem, 5/2⟩]
  ∧ ((5 : ℚ)/2).den = 2 := by
  constructor
  · show emptyCart.items ++ [⟨sampleItem, max 1 ((5 : ℚ)/2)⟩] = [⟨sampleItem, 5/2⟩]
    norm_num [emptyCart]
  · norm_num

/-- Claim C7 (confirmed): both decorator constructors store
`clampPercent percent`, which always lies in [0,100]; 150 behaves as 100 and
-10 as 0; and for percent within [0,100] the price of `Discount(percent)` on
a $100 base is `round2(100*(1-percent/100))`. -/
theorem C7_percent_clamped (p : ℚ) :
    (0 ≤ clampPercent p ∧ clampPercent p ≤ 100)
  ∧ DiscountDecorator base100 p = PricedItem.discount base100 (clampPercent p)
  ∧ InsuranceDecorator base100 p = PricedItem.insurance base100 (clampPercent p)
  ∧ DiscountDecorator base100 150 = DiscountDecorator base100 100
  ∧ DiscountDecorator base100 (-10) = DiscountDecorator base100 0
  ∧ InsuranceDecorator base100 150 = InsuranceDecorator base100 100
  ∧ InsuranceDecorator base100 (-10) = InsuranceDecorator base100 0
  ∧ (0 ≤ p → p ≤ 100 →
      getPrice (DiscountDecorator base100 p) = round2 (100 * (1 - p / 100))) := by
  refine ⟨⟨le_max_left 0 _, max_le (by norm_num) (min_le_left 100 p)⟩,
    rfl, rfl, ?_, ?_, ?_, ?_, ?_⟩
  · simp only [DiscountDecorator]
    norm_num [clampPercent]
  · simp only [DiscountDecorator]
    norm_num [clampPercent]
  · simp only [InsuranceDecorator]
    norm_num [clampPercent]
  · simp only [InsuranceDecorator]
    norm_num [clampPercent]
  · intro h0 h100
    have hc : clampPercent p = p := by
      simp only [clampPercent]
      rw [min_eq_right h100, max_eq_right h0]
    simp only [DiscountDecorator, getPrice, hc, base100]

/-- Witness for C7 at percent 37 (inside [0,100]). -/
theorem C7_percent_clamped_witness :
    getPrice (DiscountDecorator base100 37) = round2 (100 * (1 - 37 / 100)) :=
  (C7_percent_clamped 37).2.2.2.2.2.2.2 (by norm_num) (by norm_num)

/-- Claim C8 (confirmed): provided every registered observer exposes an
`update` hook (as the source's observers do), each of `addItem`, `removeItem`
and `clear` calls every registered observer exactly once per registration, in
registration order, passing the cart itself (in its post-mutation state), and
these calls are part of the operation's own return, i.e. they happen before
the mutating call returns. -/
theorem C8_observers_notified_in_order (c : CartSubject) (item : PricedItem)
    (q : ℚ) (i : ℤ)
    (hall : ∀ o ∈ c.observers, o.hasUpdate = true) :
    ((addItem c item q).2 = c.observers.map (fun o => ⟨o, (addItem c item q).1⟩))
  ∧ ((removeItem c i).2 = c.observers.map (fun o => ⟨o, (removeItem c i).1⟩))
  ∧ ((clear c).2 = c.observers.map (fun o => ⟨o, (clear c).1⟩)) := by
  exact ⟨notify_eq_map_of_all_update _ hall, notify_eq_map_of_all_update _ hall,
    notify_eq_map_of_all_update _ hall⟩

/-- Witness for C8 on a cart with two update-capable observers. -/
theorem C8_observers_notified_in_order_witness :
    ((addItem obsCart sampleItem 1).2
        = obsCart.observers.map (fun o => ⟨o, (addItem obsCart sampleItem 1).1⟩))
  ∧ ((removeItem obsCart 0).2
        = obsCart.observers.map (fun o => ⟨o, (removeItem obsCart 0).1⟩))
  ∧ ((clear obsCart).2 = obsCart.observers.map (fun o => ⟨o, (clear obsCart).1⟩)) :=
  C8_observers_notified_in_order obsCart sampleItem 1 0 (by decide)

/-- Claim C9 (confirmed): `addObserver` appends to the registry and permits
duplicate registrations of the same reference; `removeObserver` filters by
reference identity, so a single call removes every registration of the
observer: none remains in the registry and no subsequent `notify` call ever
targets it. -/
theorem C9_observer_registry (c : CartSubject) (o : Observer) :
    (addObserver c o).observers = c.observers ++ [o]
  ∧ (addObserver (addObserver c o) o).observers = c.observers ++ [o, o]
  ∧ (removeObserver c o).observers = c.observers.filter (fun x => x != o)
  ∧ (removeObserver c o).observers.all (fun x => x != o) = true
  ∧ (notify (removeObserver c o)).all (fun e => e.observer != o) = true := by
  refine ⟨rfl, by simp [addObserver], rfl, ?_, ?_⟩
  · simp only [removeObserver, List.all_eq_true, List.mem_filter]
    intro x hx
    exact hx.2
  · simp only [notify, removeObserver, List.all_eq_true, List.mem_map, List.mem_filter]
    intro e he
    obtain ⟨x, ⟨⟨hmem, hne⟩, hupd⟩, heq⟩ := he
    subst heq
    exact hne

/-- Claim C10 (confirmed): a direct `addItem` call never fails and performs no
prescription check: for any item (including one whose product has
`prescriptionRequired = true`, such as `amoxProduct`) and either gate state,
it appends a line and notifies; the cart transition is identical whether the
gate is verified or not, and it leaves the gate state untouched — the gate is
consulted only in `addToCartFlow`, never inside the cart. -/
theorem C10_addItem_unconditional (rx : Bool) (c : CartSubject)
    (item : PricedItem) (q : ℚ) :
    (addItem c item q).1.items = c.items ++ [⟨item, max 1 q⟩]
  ∧ (addItem c item q).2 = notify (addItem c item q).1
  ∧ (step ⟨c, rx⟩ (.cartAdd item q)).cart = (addItem c item q).1
  ∧ (step ⟨c, true⟩ (.cartAdd item q)).cart = (step ⟨c, false⟩ (.cartAdd item q)).cart
  ∧ (step ⟨c, rx⟩ (.cartAdd item q)).rxVerified = rx
  ∧ amoxProduct.prescriptionRequired = true
  ∧ (addItem c (.product amoxProduct) q).1.items
      = c.items ++ [⟨.product amoxProduct, max 1 q⟩] :=
  ⟨rfl, rfl, rfl, rfl, rfl, rfl, rfl⟩

end MediCart
